import Mathlib

/-!
Shallow embedding of `src/maintenance.rs` (avail-light maintenance scheduler).

The Rust module consists of a copyable configuration record
`StaticConfigParams`, a per-block round executor `process_block`, and a
scheduler loop `run` that consumes a broadcast stream of `BlockVerified`
events, calls `process_block` per event, and on the first error triggers the
shutdown controller with a formatted reason and breaks.

Modelling choices:
- Every injected capability call (`p2p_client.*`, `metrics.*`) is modelled by
  an oracle record `RoundEnv` holding the result that call would return this
  round; the round executor consumes those results in exactly the order the
  Rust code awaits them, and additionally emits the trace of capability
  invocations (`Action`) and log statements (`LogEvent`) so that
  short-circuiting is observable.
- `eyre` error reports are modelled as `String`; `wrap_err(ctx)` followed by
  alternate formatting `{error:#}` renders the chain as `ctx ++ ": " ++ inner`,
  which is how `color_eyre` alternate-displays a wrapped report.
- The `#[cfg(not(feature = "kademlia-rocksdb"))]` guard around the pruning
  block is a build-time toggle, modelled by the `pruning_enabled` flag.
- Machine integers (`u32`, `u16`) are `Nat`; no arithmetic other than `%` is
  performed on them, so no overflow is reachable. `f64` carries no arithmetic
  here either and is modelled as `Rat`.
- The broadcast receiver is modelled as a finite list of receive outcomes; the
  loop processes them in order and stops at the first failure. An exhausted
  list leaves the loop in the `Running` state (in Rust it would block waiting
  for the next event).
-/

namespace AvailLight.Maintenance

deriving instance DecidableEq for Except

/-- `StaticConfigParams` from `maintenance.rs`: a `Clone, Copy` record of
configuration values fixed at process start. -/
structure StaticConfigParams where
  block_confidence_treshold : Rat
  replication_factor : Nat
  query_timeout : Nat
  pruning_interval : Nat
  telemetry_flush_interval : Nat
deriving DecidableEq, Repr

/-- The `MetricValue` variants recorded by `process_block`. -/
inductive MetricValue where
  | DHTConnectedPeers (n : Nat)
  | BlockConfidenceThreshold (v : Rat)
  | DHTReplicationFactor (n : Nat)
  | DHTQueryTimeout (n : Nat)
  | Up
deriving DecidableEq, Repr

/-- A capability invocation performed during one round, in program order:
the five `p2p_client` calls and the telemetry `record` calls. -/
inductive Action where
  | prune_expired_records
  | flush
  | shrink_kademlia_map
  | get_kademlia_map_size
  | count_dht_entries
  | list_connected_peers
  | record (m : MetricValue)
deriving DecidableEq, Repr

/-- The log statements issued by `process_block`, with the values they carry. -/
inductive LogEvent where
  | pruning_start (block_number : Nat)
  | pruning_finished (block_number pruned : Nat)
  | pruning_failed (block_number : Nat) (error : String)
  | flushing_start (block_number : Nat)
  | flushing_finished (block_number : Nat)
  | flushing_failed (block_number : Nat) (error : String)
  | peers_info (peers_num pub_peers_num : Nat)
  | connected_peers_debug (peers : List String)
  | maintenance_completed (block_number map_size : Nat)
deriving DecidableEq, Repr

/-- Oracle for one round: the result each injected capability call would
return if invoked this round. Fields follow the capability methods of
`P2pClient` and `Metrics` used by `process_block`. -/
structure RoundEnv where
  prune_expired_records : Except String Nat
  flush : Except String Unit
  shrink_kademlia_map : Except String Unit
  get_kademlia_map_size : Except String Nat
  count_dht_entries : Except String (Nat × Nat)
  list_connected_peers : Except String (List String)
deriving DecidableEq, Repr

/-- Observable outcome of one round: the ordered capability-invocation trace,
the ordered log trace, and the `Result<()>` value. -/
structure RoundOutput where
  actions : List Action
  logs : List LogEvent
  result : Except String Unit
deriving DecidableEq, Repr

/-- `process_block` from `maintenance.rs`, line for line: gated soft actions
(pruning, metrics flush), then the four hard `p2p_client` calls with `?`
propagation (the first two wrapped with a context string), then the five
unconditional `metrics.record` calls and the completion log. -/
def process_block (pruning_enabled : Bool) (block_number : Nat)
    (env : RoundEnv) (c : StaticConfigParams) : RoundOutput :=
  let pruneActs : List Action :=
    if pruning_enabled && (block_number % c.pruning_interval == 0) then
      [.prune_expired_records]
    else []
  let pruneLogs : List LogEvent :=
    if pruning_enabled && (block_number % c.pruning_interval == 0) then
      .pruning_start block_number ::
        (match env.prune_expired_records with
          | .ok pruned => [.pruning_finished block_number pruned]
          | .error e => [.pruning_failed block_number e])
    else []
  let flushActs : List Action :=
    if block_number % c.telemetry_flush_interval == 0 then [.flush] else []
  let flushLogs : List LogEvent :=
    if block_number % c.telemetry_flush_interval == 0 then
      .flushing_start block_number ::
        (match env.flush with
          | .ok _ => [.flushing_finished block_number]
          | .error e => [.flushing_failed block_number e])
    else []
  let acts0 := pruneActs ++ flushActs
  let logs0 := pruneLogs ++ flushLogs
  match env.shrink_kademlia_map with
  | .error e =>
      { actions := acts0 ++ [.shrink_kademlia_map], logs := logs0,
        result := .error ("Unable to perform Kademlia map shrink: " ++ e) }
  | .ok _ =>
    match env.get_kademlia_map_size with
    | .error e =>
        { actions := acts0 ++ [.shrink_kademlia_map, .get_kademlia_map_size],
          logs := logs0,
          result := .error ("Unable to get Kademlia map size: " ++ e) }
    | .ok map_size =>
      match env.count_dht_entries with
      | .error e =>
          { actions := acts0 ++
              [.shrink_kademlia_map, .get_kademlia_map_size, .count_dht_entries],
            logs := logs0, result := .error e }
      | .ok (peers_num, pub_peers_num) =>
        match env.list_connected_peers with
        | .error e =>
            { actions := acts0 ++
                [.shrink_kademlia_map, .get_kademlia_map_size,
                 .count_dht_entries, .list_connected_peers],
              logs := logs0 ++ [.peers_info peers_num pub_peers_num],
              result := .error e }
        | .ok connected_peers =>
            { actions := acts0 ++
                [.shrink_kademlia_map, .get_kademlia_map_size,
                 .count_dht_entries, .list_connected_peers,
                 .record (.DHTConnectedPeers peers_num),
                 .record (.BlockConfidenceThreshold c.block_confidence_treshold),
                 .record (.DHTReplicationFactor c.replication_factor),
                 .record (.DHTQueryTimeout c.query_timeout),
                 .record .Up],
              logs := logs0 ++
                [.peers_info peers_num pub_peers_num,
                 .connected_peers_debug connected_peers,
                 .maintenance_completed block_number map_size],
              result := .ok () }

/-- The spec's Interval Policy contract: `isDue(blockNumber, interval)` is
`blockNumber mod interval == 0` (the expression the gates in `process_block`
inline). -/
def isDue (block_number interval : Nat) : Bool :=
  block_number % interval == 0

/-- The soft, interval-gated prefix of a round's action trace. -/
def gatedActions (pruning_enabled : Bool) (block_number : Nat)
    (c : StaticConfigParams) : List Action :=
  (if pruning_enabled && (block_number % c.pruning_interval == 0) then
      [Action.prune_expired_records]
    else []) ++
  (if block_number % c.telemetry_flush_interval == 0 then [Action.flush] else [])

/-- All four hard capability calls of a round would succeed. -/
def allHardOk (env : RoundEnv) : Bool :=
  env.shrink_kademlia_map.isOk && env.get_kademlia_map_size.isOk &&
    env.count_dht_entries.isOk && env.list_connected_peers.isOk

/-- The metric values step 7 records, read off the oracle: present exactly
when the DHT entry count succeeded. -/
def expectedRecords (env : RoundEnv) (c : StaticConfigParams) : List MetricValue :=
  match env.count_dht_entries with
  | .ok (peers_num, _) =>
      [.DHTConnectedPeers peers_num,
       .BlockConfidenceThreshold c.block_confidence_treshold,
       .DHTReplicationFactor c.replication_factor,
       .DHTQueryTimeout c.query_timeout,
       .Up]
  | .error _ => []

/-- The metric values a round actually recorded, in order. -/
def recordedMetrics (out : RoundOutput) : List MetricValue :=
  out.actions.filterMap fun a =>
    match a with
    | .record m => some m
    | _ => none

/-- The natural-number payloads a metric value carries. -/
def metricNats : MetricValue → List Nat
  | .DHTConnectedPeers n => [n]
  | .DHTReplicationFactor n => [n]
  | .DHTQueryTimeout n => [n]
  | .BlockConfidenceThreshold _ => []
  | .Up => []

/-- One `block_receiver.recv()` outcome: a `BlockVerified` event (with the
capability oracle for its round) or a receive error. -/
inductive RecvOutcome where
  | ok (block_num : Nat) (env : RoundEnv)
  | err (error : String)
deriving DecidableEq, Repr

/-- Scheduler-loop state: `Running` (still consuming events) or the terminal
`Stopped` (the loop has broken out). -/
inductive LoopState where
  | Running
  | Stopped
deriving DecidableEq, Repr

/-- Record of one completed `process_block` invocation by the loop. -/
structure RoundRecord where
  block_num : Nat
  cfgUsed : StaticConfigParams
  out : RoundOutput
deriving DecidableEq, Repr

/-- Observable outcome of the scheduler loop over a finite event prefix:
rounds executed, the reasons passed to `shutdown.trigger_shutdown`, and the
loop state reached. -/
structure RunOutput where
  rounds : List RoundRecord
  shutdownCalls : List String
  state : LoopState
deriving DecidableEq, Repr

/-- `run` from `maintenance.rs`: receive an event, process it, and on the
first error (from the receiver, converted directly, or from `process_block`)
trigger shutdown with the formatted reason and break. The trigger result is
discarded (`let _ = ...`), modelled by the unused `trigger_result` argument. -/
def run (pruning_enabled : Bool) (events : List RecvOutcome)
    (c : StaticConfigParams) (trigger_result : Except String Unit) : RunOutput :=
  match events with
  | [] => { rounds := [], shutdownCalls := [], state := .Running }
  | .err e :: _ =>
      { rounds := [], shutdownCalls := [e], state := .Stopped }
  | .ok n env :: rest =>
      let out := process_block pruning_enabled n env c
      match out.result with
      | .error e =>
          { rounds := [⟨n, c, out⟩], shutdownCalls := [e], state := .Stopped }
      | .ok _ =>
          let r := run pruning_enabled rest c trigger_result
          { rounds := ⟨n, c, out⟩ :: r.rounds,
            shutdownCalls := r.shutdownCalls, state := r.state }

/-- A received outcome that keeps the loop running: a successfully received
event whose round returns `Ok(())`. -/
def recvOk (pruning_enabled : Bool) (c : StaticConfigParams) : RecvOutcome → Bool
  | .err _ => false
  | .ok n env => (process_block pruning_enabled n env c).result.isOk

/-- The shutdown reason the loop formats for a failing outcome: the receive
error's message as-is, or the round's error message. -/
def fatalReason (pruning_enabled : Bool) (c : StaticConfigParams) :
    RecvOutcome → String
  | .err e => e
  | .ok n env =>
      match (process_block pruning_enabled n env c).result with
      | .error e => e
      | .ok _ => ""

/-! ### Concrete fixtures used by witnesses and counterexamples -/

/-- A sample configuration (all capability values positive, intervals 10/5). -/
def cfgEx : StaticConfigParams :=
  { block_confidence_treshold := 1, replication_factor := 5,
    query_timeout := 60, pruning_interval := 10, telemetry_flush_interval := 5 }

/-- An oracle in which every capability call succeeds; the DHT entry count is
5 peers, of which 3 have public addresses; the map size is 42. -/
def envAllOk : RoundEnv :=
  { prune_expired_records := .ok 4, flush := .ok (),
    shrink_kademlia_map := .ok (), get_kademlia_map_size := .ok 42,
    count_dht_entries := .ok (5, 3), list_connected_peers := .ok ["peerA"] }

/-- An oracle in which both soft actions fail but every hard call succeeds. -/
def envSoftFail : RoundEnv :=
  { prune_expired_records := .error "prune oops", flush := .error "flush oops",
    shrink_kademlia_map := .ok (), get_kademlia_map_size := .ok 42,
    count_dht_entries := .ok (5, 3), list_connected_peers := .ok ["peerA"] }

/-- An oracle in which the routing-map shrink fails with "disk full". -/
def envShrinkDiskFull : RoundEnv :=
  { prune_expired_records := .ok 0, flush := .ok (),
    shrink_kademlia_map := .error "disk full", get_kademlia_map_size := .ok 42,
    count_dht_entries := .ok (5, 3), list_connected_peers := .ok [] }

/-! ### Structural lemmas about `process_block` -/

/-- A round's action trace is the gated soft prefix followed by a hard/record
tail; the tail never contains a soft action, and it contains `record m`
exactly when every hard call succeeds and `m` is among the step-7 records. -/
lemma process_block_actions_shape (pe : Bool) (n : Nat) (env : RoundEnv)
    (c : StaticConfigParams) :
    ∃ tail, (process_block pe n env c).actions = gatedActions pe n c ++ tail ∧
      Action.prune_expired_records ∉ tail ∧ Action.flush ∉ tail ∧
      ∀ m : MetricValue,
        (Action.record m ∈ tail ↔
          allHardOk env = true ∧ m ∈ expectedRecords env c) := by
  rcases env with ⟨pr, fl, sh, sz, cd, lp⟩
  cases sh with
  | error e =>
    exact ⟨[.shrink_kademlia_map], rfl, by simp, by simp,
      fun m => by simp [allHardOk, Except.isOk, Except.toBool]⟩
  | ok u =>
    cases sz with
    | error e =>
      exact ⟨[.shrink_kademlia_map, .get_kademlia_map_size], rfl, by simp,
        by simp, fun m => by simp [allHardOk, Except.isOk, Except.toBool]⟩
    | ok msize =>
      cases cd with
      | error e =>
        exact ⟨[.shrink_kademlia_map, .get_kademlia_map_size,
            .count_dht_entries], rfl, by simp, by simp,
          fun m => by simp [allHardOk, Except.isOk, Except.toBool]⟩
      | ok p =>
        obtain ⟨pn, ppn⟩ := p
        cases lp with
        | error e =>
          exact ⟨[.shrink_kademlia_map, .get_kademlia_map_size,
              .count_dht_entries, .list_connected_peers], rfl, by simp,
            by simp, fun m => by simp [allHardOk, Except.isOk, Except.toBool]⟩
        | ok peers =>
          refine ⟨[.shrink_kademlia_map, .get_kademlia_map_size,
              .count_dht_entries, .list_connected_peers,
              .record (.DHTConnectedPeers pn),
              .record (.BlockConfidenceThreshold c.block_confidence_treshold),
              .record (.DHTReplicationFactor c.replication_factor),
              .record (.DHTQueryTimeout c.query_timeout),
              .record .Up], rfl, by simp, by simp, fun m => ?_⟩
          simp [allHardOk, Except.isOk, Except.toBool, expectedRecords]

/-- `record m` never appears among the gated soft actions. -/
lemma record_not_mem_gatedActions (pe : Bool) (n : Nat) (c : StaticConfigParams)
    (m : MetricValue) : Action.record m ∉ gatedActions pe n c := by
  unfold gatedActions
  split <;> split <;> simp

/-! ### Claim theorems about `process_block` -/

/-- C1: if any hard action (routing-map shrink, routing-map size read, DHT
entry count, connected-peers listing) fails, the round's outcome is an `Err`
result, regardless of the soft-action outcomes (the oracle is arbitrary), and
the action trace stops at the failing hard action: nothing after it — no
later hard action and no telemetry `record` — is invoked. -/
theorem hard_failure_fatal_short_circuit (pe : Bool) (n : Nat) (env : RoundEnv)
    (c : StaticConfigParams) :
    (env.shrink_kademlia_map.isOk = false →
      (process_block pe n env c).result.isOk = false ∧
      (process_block pe n env c).actions =
        gatedActions pe n c ++ [Action.shrink_kademlia_map]) ∧
    (env.shrink_kademlia_map.isOk = true →
      env.get_kademlia_map_size.isOk = false →
      (process_block pe n env c).result.isOk = false ∧
      (process_block pe n env c).actions =
        gatedActions pe n c ++
          [Action.shrink_kademlia_map, Action.get_kademlia_map_size]) ∧
    (env.shrink_kademlia_map.isOk = true →
      env.get_kademlia_map_size.isOk = true →
      env.count_dht_entries.isOk = false →
      (process_block pe n env c).result.isOk = false ∧
      (process_block pe n env c).actions =
        gatedActions pe n c ++
          [Action.shrink_kademlia_map, Action.get_kademlia_map_size,
           Action.count_dht_entries]) ∧
    (env.shrink_kademlia_map.isOk = true →
      env.get_kademlia_map_size.isOk = true →
      env.count_dht_entries.isOk = true →
      env.list_connected_peers.isOk = false →
      (process_block pe n env c).result.isOk = false ∧
      (process_block pe n env c).actions =
        gatedActions pe n c ++
          [Action.shrink_kademlia_map, Action.get_kademlia_map_size,
           Action.count_dht_entries, Action.list_connected_peers]) := by
  rcases env with ⟨pr, fl, sh, sz, cd, lp⟩
  refine ⟨fun h1 => ?_, fun h1 h2 => ?_, fun h1 h2 h3 => ?_,
    fun h1 h2 h3 h4 => ?_⟩
  · cases sh with
    | error e => exact ⟨rfl, rfl⟩
    | ok u => simp [Except.isOk, Except.toBool] at h1
  · cases sh with
    | error e => simp [Except.isOk, Except.toBool] at h1
    | ok u =>
      cases sz with
      | error e => exact ⟨rfl, rfl⟩
      | ok msize => simp [Except.isOk, Except.toBool] at h2
  · cases sh with
    | error e => simp [Except.isOk, Except.toBool] at h1
    | ok u =>
      cases sz with
      | error e => simp [Except.isOk, Except.toBool] at h2
      | ok msize =>
        cases cd with
        | error e => exact ⟨rfl, rfl⟩
        | ok p => simp [Except.isOk, Except.toBool] at h3
  · cases sh with
    | error e => simp [Except.isOk, Except.toBool] at h1
    | ok u =>
      cases sz with
      | error e => simp [Except.isOk, Except.toBool] at h2
      | ok msize =>
        cases cd with
        | error e => simp [Except.isOk, Except.toBool] at h3
        | ok p =>
          obtain ⟨pn, ppn⟩ := p
          cases lp with
          | error e => exact ⟨rfl, rfl⟩
          | ok peers => simp [Except.isOk, Except.toBool] at h4

/-- C1 witness: with the shrink call failing, the round is fatal and the
trace stops at the shrink action. -/
theorem hard_failure_fatal_short_circuit_witness :
    (process_block true 1 envShrinkDiskFull cfgEx).result.isOk = false ∧
    (process_block true 1 envShrinkDiskFull cfgEx).actions =
      gatedActions true 1 cfgEx ++ [Action.shrink_kademlia_map] :=
  (hard_failure_fatal_short_circuit true 1 envShrinkDiskFull cfgEx).1
    (by decide)

/-- C2: when all four hard actions succeed, the round returns `Ok(())`,
whatever the soft-action results are (the oracle's soft fields are
unconstrained). -/
theorem all_hard_ok_continue (pe : Bool) (n : Nat) (env : RoundEnv)
    (c : StaticConfigParams) (h : allHardOk env = true) :
    (process_block pe n env c).result = .ok () := by
  rcases env with ⟨pr, fl, sh, sz, cd, lp⟩
  cases sh with
  | error e => simp [allHardOk, Except.isOk, Except.toBool] at h
  | ok u =>
    cases sz with
    | error e => simp [allHardOk, Except.isOk, Except.toBool] at h
    | ok msize =>
      cases cd with
      | error e => simp [allHardOk, Except.isOk, Except.toBool] at h
      | ok p =>
        obtain ⟨pn, ppn⟩ := p
        cases lp with
        | error e => simp [allHardOk, Except.isOk, Except.toBool] at h
        | ok peers => rfl

/-- C2 witness: a round whose soft actions both fail but whose hard actions
all succeed returns `Ok(())`. -/
theorem all_hard_ok_continue_witness :
    (process_block true 10 envSoftFail cfgEx).result = .ok () :=
  all_hard_ok_continue true 10 envSoftFail cfgEx (by decide)

/-- Membership of the two soft actions in the gated prefix, characterised by
the Interval Policy contract `isDue`. -/
lemma mem_gatedActions (pe : Bool) (n : Nat) (c : StaticConfigParams) :
    (Action.prune_expired_records ∈ gatedActions pe n c ↔
      pe = true ∧ isDue n c.pruning_interval = true) ∧
    (Action.flush ∈ gatedActions pe n c ↔
      isDue n c.telemetry_flush_interval = true) := by
  rcases Bool.eq_false_or_eq_true pe with h1 | h1 <;>
    rcases Bool.eq_false_or_eq_true (n % c.pruning_interval == 0) with h2 | h2 <;>
      rcases Bool.eq_false_or_eq_true (n % c.telemetry_flush_interval == 0)
          with h3 | h3 <;>
        simp [gatedActions, isDue, h1, h2, h3]

/-- C3: for intervals ≥ 1 a gated action is invoked exactly when
`isDue` holds, i.e. when the block number is divisible by the interval; the
two gates are evaluated independently. With `pruning_interval = 10` and
`telemetry_flush_interval = 5` (the values of `cfgEx`), block 20 fires both
gates, block 15 only the flush gate, and block 7 neither. -/
theorem interval_gating :
    (∀ (pe : Bool) (n : Nat) (env : RoundEnv) (c : StaticConfigParams),
      1 ≤ c.pruning_interval → 1 ≤ c.telemetry_flush_interval →
      (Action.prune_expired_records ∈ (process_block pe n env c).actions ↔
        pe = true ∧ isDue n c.pruning_interval = true) ∧
      (Action.flush ∈ (process_block pe n env c).actions ↔
        isDue n c.telemetry_flush_interval = true)) ∧
    ((Action.prune_expired_records ∈ (process_block true 20 envAllOk cfgEx).actions ∧
      Action.flush ∈ (process_block true 20 envAllOk cfgEx).actions) ∧
     (Action.prune_expired_records ∉ (process_block true 15 envAllOk cfgEx).actions ∧
      Action.flush ∈ (process_block true 15 envAllOk cfgEx).actions) ∧
     (Action.prune_expired_records ∉ (process_block true 7 envAllOk cfgEx).actions ∧
      Action.flush ∉ (process_block true 7 envAllOk cfgEx).actions)) := by
  constructor
  · intro pe n env c hp ht
    obtain ⟨tail, heq, hpr, hfl, _⟩ := process_block_actions_shape pe n env c
    rw [heq]
    refine ⟨?_, ?_⟩
    · rw [List.mem_append]
      simp only [hpr, or_false]
      exact (mem_gatedActions pe n c).1
    · rw [List.mem_append]
      simp only [hfl, or_false]
      exact (mem_gatedActions pe n c).2
  · exact ⟨by decide, by decide, by decide⟩

/-- C3 witness: the gating equivalence instantiated at block 20 with the
10/5 configuration. -/
theorem interval_gating_witness :
    (1 ≤ cfgEx.pruning_interval ∧ 1 ≤ cfgEx.telemetry_flush_interval) ∧
    ((Action.prune_expired_records ∈ (process_block true 20 envAllOk cfgEx).actions ↔
        true = true ∧ isDue 20 cfgEx.pruning_interval = true) ∧
      (Action.flush ∈ (process_block true 20 envAllOk cfgEx).actions ↔
        isDue 20 cfgEx.telemetry_flush_interval = true)) :=
  ⟨⟨by decide, by decide⟩,
    interval_gating.1 true 20 envAllOk cfgEx (by decide) (by decide)⟩

/-- C5: a step-7 telemetry `record` call appears in a round's trace exactly
when no hard action failed (and the recorded value is one of the five step-7
metrics); soft-action outcomes are irrelevant since the oracle's soft fields
are unconstrained. -/
theorem telemetry_iff_no_hard_failure (pe : Bool) (n : Nat) (env : RoundEnv)
    (c : StaticConfigParams) (m : MetricValue) :
    Action.record m ∈ (process_block pe n env c).actions ↔
      allHardOk env = true ∧ m ∈ expectedRecords env c := by
  obtain ⟨tail, heq, _, _, hrec⟩ := process_block_actions_shape pe n env c
  rw [heq, List.mem_append]
  simp only [record_not_mem_gatedActions, false_or]
  exact hrec m

/-- C9: at block number 0 both gates fire (0 is divisible by every interval),
so a round for block 0 attempts both the pruning action (when compiled in)
and the metrics flush. -/
theorem block_zero_fires_both_gates (env : RoundEnv) (c : StaticConfigParams)
    (hp : 1 ≤ c.pruning_interval) (ht : 1 ≤ c.telemetry_flush_interval) :
    Action.prune_expired_records ∈ (process_block true 0 env c).actions ∧
    Action.flush ∈ (process_block true 0 env c).actions := by
  obtain ⟨tail, heq, _, _, _⟩ := process_block_actions_shape true 0 env c
  rw [heq, List.mem_append, List.mem_append]
  refine ⟨Or.inl ?_, Or.inl ?_⟩
  · exact (mem_gatedActions true 0 c).1.mpr ⟨rfl, by simp [isDue]⟩
  · exact (mem_gatedActions true 0 c).2.mpr (by simp [isDue])

/-- C9 witness: at block 0 with the 10/5 configuration, both soft actions
are attempted. -/
theorem block_zero_fires_both_gates_witness :
    (1 ≤ cfgEx.pruning_interval ∧ 1 ≤ cfgEx.telemetry_flush_interval) ∧
    (Action.prune_expired_records ∈ (process_block true 0 envAllOk cfgEx).actions ∧
      Action.flush ∈ (process_block true 0 envAllOk cfgEx).actions) :=
  ⟨⟨by decide, by decide⟩,
    block_zero_fires_both_gates envAllOk cfgEx (by decide) (by decide)⟩

/-! ### Structural lemmas about `run` -/

lemma run_nil (pe : Bool) (c : StaticConfigParams) (tr : Except String Unit) :
    run pe [] c tr = { rounds := [], shutdownCalls := [], state := .Running } :=
  rfl

lemma run_cons_err (pe : Bool) (c : StaticConfigParams)
    (tr : Except String Unit) (e : String) (rest : List RecvOutcome) :
    run pe (.err e :: rest) c tr =
      { rounds := [], shutdownCalls := [e], state := .Stopped } :=
  rfl

lemma run_cons_ok_fatal (pe : Bool) (c : StaticConfigParams)
    (tr : Except String Unit) (n : Nat) (env : RoundEnv)
    (rest : List RecvOutcome) (e : String)
    (h : (process_block pe n env c).result = .error e) :
    run pe (.ok n env :: rest) c tr =
      { rounds := [⟨n, c, process_block pe n env c⟩], shutdownCalls := [e],
        state := .Stopped } := by
  simp [run, h]

lemma run_cons_ok_continue (pe : Bool) (c : StaticConfigParams)
    (tr : Except String Unit) (n : Nat) (env : RoundEnv)
    (rest : List RecvOutcome)
    (h : (process_block pe n env c).result = .ok ()) :
    run pe (.ok n env :: rest) c tr =
      { rounds := ⟨n, c, process_block pe n env c⟩ :: (run pe rest c tr).rounds,
        shutdownCalls := (run pe rest c tr).shutdownCalls,
        state := (run pe rest c tr).state } := by
  simp [run, h]

/-- At most one shutdown call ever happens, and exactly one happens iff the
loop reached the terminal `Stopped` state. -/
lemma run_shutdown_le_one (pe : Bool) (c : StaticConfigParams)
    (tr : Except String Unit) :
    ∀ events, (run pe events c tr).shutdownCalls.length ≤ 1 ∧
      ((run pe events c tr).state = .Stopped ↔
        (run pe events c tr).shutdownCalls.length = 1) := by
  intro events
  induction events with
  | nil => simp [run_nil]
  | cons ev rest ih =>
    cases ev with
    | err e => simp [run_cons_err]
    | ok n env =>
      cases hres : (process_block pe n env c).result with
      | error e => simp [run_cons_ok_fatal pe c tr n env rest e hres]
      | ok u =>
        cases u
        simpa [run_cons_ok_continue pe c tr n env rest hres] using ih

/-- Over a prefix of all-successful outcomes the loop neither stops nor
triggers shutdown. -/
lemma run_all_ok (pe : Bool) (c : StaticConfigParams)
    (tr : Except String Unit) :
    ∀ events, (∀ x ∈ events, recvOk pe c x = true) →
      (run pe events c tr).shutdownCalls = [] ∧
      (run pe events c tr).state = .Running := by
  intro events
  induction events with
  | nil => intro _; simp [run_nil]
  | cons ev rest ih =>
    intro h
    have hev := h ev (by simp)
    cases ev with
    | err e => simp [recvOk] at hev
    | ok n env =>
      simp only [recvOk] at hev
      cases hres : (process_block pe n env c).result with
      | error e => rw [hres] at hev; simp [Except.isOk, Except.toBool] at hev
      | ok u =>
        cases u
        have ihr := ih fun x hx => h x (List.mem_cons_of_mem _ hx)
        simp [run_cons_ok_continue pe c tr n env rest hres, ihr.1, ihr.2]

/-- After a prefix of successful outcomes, the first failing outcome stops
the loop with exactly its formatted reason, and whatever events follow it are
never examined. -/
lemma run_first_fatal (pe : Bool) (c : StaticConfigParams)
    (tr : Except String Unit) (ev : RecvOutcome)
    (hev : recvOk pe c ev = false) :
    ∀ good rest, (∀ x ∈ good, recvOk pe c x = true) →
      run pe (good ++ ev :: rest) c tr = run pe (good ++ [ev]) c tr ∧
      (run pe (good ++ ev :: rest) c tr).shutdownCalls =
        [fatalReason pe c ev] ∧
      (run pe (good ++ ev :: rest) c tr).state = .Stopped := by
  intro good
  induction good with
  | nil =>
    intro rest _
    cases ev with
    | err e =>
      refine ⟨?_, ?_, ?_⟩ <;> simp [run_cons_err, fatalReason]
    | ok n env =>
      simp only [recvOk] at hev
      cases hres : (process_block pe n env c).result with
      | ok u => rw [hres] at hev; simp [Except.isOk, Except.toBool] at hev
      | error e =>
        refine ⟨?_, ?_, ?_⟩ <;>
          simp [List.nil_append, run_cons_ok_fatal pe c tr n env rest e hres,
            run_cons_ok_fatal pe c tr n env [] e hres, fatalReason, hres]
  | cons g gs ih =>
    intro rest h
    have hg := h g (by simp)
    cases g with
    | err e => simp [recvOk] at hg
    | ok n env =>
      simp only [recvOk] at hg
      cases hres : (process_block pe n env c).result with
      | error e => rw [hres] at hg; simp [Except.isOk, Except.toBool] at hg
      | ok u =>
        cases u
        have ihr := ih rest fun x hx => h x (List.mem_cons_of_mem _ hx)
        refine ⟨?_, ?_, ?_⟩
        · rw [List.cons_append, List.cons_append,
            run_cons_ok_continue pe c tr n env (gs ++ ev :: rest) hres,
            run_cons_ok_continue pe c tr n env (gs ++ [ev]) hres, ihr.1]
        · rw [List.cons_append,
            run_cons_ok_continue pe c tr n env (gs ++ ev :: rest) hres]
          exact ihr.2.1
        · rw [List.cons_append,
            run_cons_ok_continue pe c tr n env (gs ++ ev :: rest) hres]
          exact ihr.2.2

/-- The loop's observable behaviour does not depend on the value returned by
`trigger_shutdown` (the Rust code discards it with `let _ = ...`). -/
lemma run_trigger_irrelevant (pe : Bool) (c : StaticConfigParams)
    (tr tr' : Except String Unit) :
    ∀ events, run pe events c tr = run pe events c tr' := by
  intro events
  induction events with
  | nil => rfl
  | cons ev rest ih =>
    cases ev with
    | err e => rfl
    | ok n env =>
      cases hres : (process_block pe n env c).result with
      | error e =>
        rw [run_cons_ok_fatal pe c tr n env rest e hres,
          run_cons_ok_fatal pe c tr' n env rest e hres]
      | ok u =>
        cases u
        rw [run_cons_ok_continue pe c tr n env rest hres,
          run_cons_ok_continue pe c tr' n env rest hres, ih]

/-- Every round the loop executes uses the configuration the loop was
created with. -/
lemma run_rounds_cfg (pe : Bool) (c : StaticConfigParams)
    (tr : Except String Unit) :
    ∀ events, ∀ r ∈ (run pe events c tr).rounds, r.cfgUsed = c := by
  intro events
  induction events with
  | nil => intro r hr; simp [run_nil] at hr
  | cons ev rest ih =>
    cases ev with
    | err e => intro r hr; simp [run_cons_err] at hr
    | ok n env =>
      cases hres : (process_block pe n env c).result with
      | error e =>
        intro r hr
        rw [run_cons_ok_fatal pe c tr n env rest e hres] at hr
        simp at hr
        rw [hr]
      | ok u =>
        cases u
        intro r hr
        rw [run_cons_ok_continue pe c tr n env rest hres] at hr
        simp at hr
        rcases hr with hr | hr
        · rw [hr]
        · exact ih r hr

/-! ### Claim theorems about `run` and the error-propagation policy -/

/-- C4: the loop triggers shutdown at most once, exactly once iff it reached
the terminal `Stopped` state; and after a prefix of successful rounds, the
first failing outcome (receive error or fatal round) stops the loop with the
reason formatted from that error, the events queued after it being neither
received nor processed (the run is literally the run that ends at the
failure). -/
theorem shutdown_exactly_once :
    (∀ (pe : Bool) (events : List RecvOutcome) (c : StaticConfigParams)
        (tr : Except String Unit),
      (run pe events c tr).shutdownCalls.length ≤ 1 ∧
        ((run pe events c tr).state = .Stopped ↔
          (run pe events c tr).shutdownCalls.length = 1)) ∧
    (∀ (pe : Bool) (c : StaticConfigParams) (tr : Except String Unit)
        (good rest : List RecvOutcome) (ev : RecvOutcome),
      (∀ x ∈ good, recvOk pe c x = true) → recvOk pe c ev = false →
      run pe (good ++ ev :: rest) c tr = run pe (good ++ [ev]) c tr ∧
        (run pe (good ++ ev :: rest) c tr).shutdownCalls =
          [fatalReason pe c ev]) := by
  refine ⟨fun pe events c tr => run_shutdown_le_one pe c tr events,
    fun pe c tr good rest ev hgood hev => ?_⟩
  obtain ⟨h1, h2, _⟩ := run_first_fatal pe c tr ev hev good rest hgood
  exact ⟨h1, h2⟩

/-- C4 witness: one successful round, then a receive error with another event
still queued: the queued event is never processed and the single shutdown
call carries the receive error's message. -/
theorem shutdown_exactly_once_witness :
    run true ([RecvOutcome.ok 5 envAllOk] ++
        RecvOutcome.err "channel lagged" :: [RecvOutcome.ok 6 envAllOk])
        cfgEx (.ok ()) =
      run true ([RecvOutcome.ok 5 envAllOk] ++ [RecvOutcome.err "channel lagged"])
        cfgEx (.ok ()) ∧
    (run true ([RecvOutcome.ok 5 envAllOk] ++
        RecvOutcome.err "channel lagged" :: [RecvOutcome.ok 6 envAllOk])
        cfgEx (.ok ())).shutdownCalls =
      [fatalReason true cfgEx (RecvOutcome.err "channel lagged")] :=
  shutdown_exactly_once.2 true cfgEx (.ok ()) [RecvOutcome.ok 5 envAllOk]
    [RecvOutcome.ok 6 envAllOk] (RecvOutcome.err "channel lagged")
    (by decide) (by decide)

/-- C10: the loop's behaviour is identical whatever `trigger_shutdown`
returns (the result is discarded), and after the first fatal outcome the
loop is `Stopped` even when the trigger result is an error. -/
theorem shutdown_trigger_result_ignored :
    (∀ (pe : Bool) (events : List RecvOutcome) (c : StaticConfigParams)
        (tr tr' : Except String Unit),
      run pe events c tr = run pe events c tr') ∧
    (∀ (pe : Bool) (c : StaticConfigParams) (tr : Except String Unit)
        (good rest : List RecvOutcome) (ev : RecvOutcome),
      (∀ x ∈ good, recvOk pe c x = true) → recvOk pe c ev = false →
      (run pe (good ++ ev :: rest) c tr).state = .Stopped) :=
  ⟨fun pe events c tr tr' => run_trigger_irrelevant pe c tr tr' events,
    fun pe c tr good rest ev hgood hev =>
      (run_first_fatal pe c tr ev hev good rest hgood).2.2⟩

/-- C10 witness: even with a failing trigger result, the loop stops at the
first receive error. -/
theorem shutdown_trigger_result_ignored_witness :
    (run true (([] : List RecvOutcome) ++
        RecvOutcome.err "closed" :: [RecvOutcome.ok 6 envAllOk]) cfgEx
        (.error "already triggered")).state = .Stopped :=
  shutdown_trigger_result_ignored.2 true cfgEx (.error "already triggered")
    [] [RecvOutcome.ok 6 envAllOk] (RecvOutcome.err "closed")
    (by decide) (by decide)

/-- C8: the loop passes `process_block` the very configuration it was created
with on every round it executes (the config record is immutable and copied,
never rebuilt). -/
theorem config_constant_across_rounds (pe : Bool) (events : List RecvOutcome)
    (c : StaticConfigParams) (tr : Except String Unit) :
    ∀ r ∈ (run pe events c tr).rounds, r.cfgUsed = c :=
  run_rounds_cfg pe c tr events

/-- C8 witness: the single round of a one-event run used `cfgEx`. -/
theorem config_constant_across_rounds_witness :
    (⟨5, cfgEx, process_block true 5 envAllOk cfgEx⟩ : RoundRecord) ∈
      (run true [RecvOutcome.ok 5 envAllOk] cfgEx (.ok ())).rounds ∧
    (⟨5, cfgEx, process_block true 5 envAllOk cfgEx⟩ : RoundRecord).cfgUsed =
      cfgEx := by
  have hm : (⟨5, cfgEx, process_block true 5 envAllOk cfgEx⟩ : RoundRecord) ∈
      (run true [RecvOutcome.ok 5 envAllOk] cfgEx (.ok ())).rounds := by
    rw [run_cons_ok_continue true cfgEx (.ok ()) 5 envAllOk [] (by decide),
      run_nil]
    simp
  exact ⟨hm, config_constant_across_rounds true [RecvOutcome.ok 5 envAllOk]
    cfgEx (.ok ()) ⟨5, cfgEx, process_block true 5 envAllOk cfgEx⟩ hm⟩

/-- C6 counterexample: when the shrink call fails with "disk full", the
fatal message is "Unable to perform Kademlia map shrink: disk full" — it
contains "disk full" but not the claimed context phrase "unable to perform
routing-map shrink", which matches the spec's renamed vocabulary, not the
code's actual string. -/
theorem error_context_counterexample :
    (process_block true 1 envShrinkDiskFull cfgEx).result =
      .error "Unable to perform Kademlia map shrink: disk full" ∧
    "disk full".data <:+:
      "Unable to perform Kademlia map shrink: disk full".data ∧
    ¬ ("unable to perform routing-map shrink".data <:+:
        "Unable to perform Kademlia map shrink: disk full".data) := by
  decide

/-- C6 (amended): a shrink failure is wrapped with the context
"Unable to perform Kademlia map shrink", a size-read failure with
"Unable to get Kademlia map size", the DHT entry-count failure is propagated
as-is, and a receive error becomes the loop's shutdown reason unchanged. -/
theorem error_contexts (pe : Bool) (n : Nat) (env : RoundEnv)
    (c : StaticConfigParams) :
    (∀ e, env.shrink_kademlia_map = .error e →
      (process_block pe n env c).result =
        .error ("Unable to perform Kademlia map shrink: " ++ e)) ∧
    (∀ e, env.shrink_kademlia_map.isOk = true →
      env.get_kademlia_map_size = .error e →
      (process_block pe n env c).result =
        .error ("Unable to get Kademlia map size: " ++ e)) ∧
    (∀ e, env.shrink_kademlia_map.isOk = true →
      env.get_kademlia_map_size.isOk = true →
      env.count_dht_entries = .error e →
      (process_block pe n env c).result = .error e) ∧
    (∀ (e : String) (rest : List RecvOutcome) (tr : Except String Unit),
      run pe (.err e :: rest) c tr =
        { rounds := [], shutdownCalls := [e], state := .Stopped }) := by
  rcases env with ⟨pr, fl, sh, sz, cd, lp⟩
  refine ⟨fun e h1 => ?_, fun e h1 h2 => ?_, fun e h1 h2 h3 => ?_,
    fun e rest tr => run_cons_err pe c tr e rest⟩
  · cases sh with
    | error e0 =>
      cases h1
      rfl
    | ok u => exact absurd h1 (by simp)
  · cases sh with
    | error e0 => simp [Except.isOk, Except.toBool] at h1
    | ok u =>
      cases sz with
      | error e0 =>
        cases h2
        rfl
      | ok msize => exact absurd h2 (by simp)
  · cases sh with
    | error e0 => simp [Except.isOk, Except.toBool] at h1
    | ok u =>
      cases sz with
      | error e0 => simp [Except.isOk, Except.toBool] at h2
      | ok msize =>
        cases cd with
        | error e0 =>
          cases h3
          rfl
        | ok p => exact absurd h3 (by simp)

/-- C6 witness: the shrink-failure conjunct at the "disk full" oracle. -/
theorem error_contexts_witness :
    (process_block true 1 envShrinkDiskFull cfgEx).result =
      .error ("Unable to perform Kademlia map shrink: " ++ "disk full") :=
  (error_contexts true 1 envShrinkDiskFull cfgEx).1 "disk full" (by decide)

/-- C7 counterexample: in a fully successful round whose DHT entry count is
(5 connected, 3 public), the metrics actually recorded are exactly the
connected-peer count, the three config values and the liveness signal; no
recorded metric carries the public-peer count 3 — it is not recorded to the
telemetry sink. -/
theorem public_peer_count_not_recorded :
    recordedMetrics (process_block true 1 envAllOk cfgEx) =
      [.DHTConnectedPeers 5, .BlockConfidenceThreshold 1,
       .DHTReplicationFactor 5, .DHTQueryTimeout 60, .Up] ∧
    (∀ m ∈ recordedMetrics (process_block true 1 envAllOk cfgEx),
      3 ∉ metricNats m) := by
  decide

/-- C7 (amended): every round that reaches the unconditional telemetry step
records exactly the connected-peer count, the three static config values and
the liveness signal; the public-peer count appears only in the info log
line, not among the recorded metrics. -/
theorem telemetry_recorded_amended (pe : Bool) (n : Nat) (env : RoundEnv)
    (c : StaticConfigParams) (peers_num pub_peers_num : Nat)
    (hall : allHardOk env = true)
    (hcd : env.count_dht_entries = .ok (peers_num, pub_peers_num)) :
    recordedMetrics (process_block pe n env c) =
      [.DHTConnectedPeers peers_num,
       .BlockConfidenceThreshold c.block_confidence_treshold,
       .DHTReplicationFactor c.replication_factor,
       .DHTQueryTimeout c.query_timeout, .Up] ∧
    LogEvent.peers_info peers_num pub_peers_num ∈
      (process_block pe n env c).logs := by
  rcases env with ⟨pr, fl, sh, sz, cd, lp⟩
  have hcd' : cd = .ok (peers_num, pub_peers_num) := hcd
  subst hcd'
  cases sh with
  | error e => simp [allHardOk, Except.isOk, Except.toBool] at hall
  | ok u =>
    cases sz with
    | error e => simp [allHardOk, Except.isOk, Except.toBool] at hall
    | ok msize =>
      cases lp with
      | error e => simp [allHardOk, Except.isOk, Except.toBool] at hall
      | ok peers =>
        rcases Bool.eq_false_or_eq_true (pe && (n % c.pruning_interval == 0))
            with h1 | h1 <;>
          rcases Bool.eq_false_or_eq_true (n % c.telemetry_flush_interval == 0)
              with h2 | h2 <;>
            refine ⟨?_, ?_⟩ <;>
              simp [process_block, recordedMetrics, h1, h2]

/-- C7 witness: a round with both soft actions failing still records exactly
the five step-7 metrics and logs the public-peer count. -/
theorem telemetry_recorded_amended_witness :
    recordedMetrics (process_block true 1 envSoftFail cfgEx) =
      [.DHTConnectedPeers 5,
       .BlockConfidenceThreshold cfgEx.block_confidence_treshold,
       .DHTReplicationFactor cfgEx.replication_factor,
       .DHTQueryTimeout cfgEx.query_timeout, .Up] ∧
    LogEvent.peers_info 5 3 ∈ (process_block true 1 envSoftFail cfgEx).logs :=
  telemetry_recorded_amended true 1 envSoftFail cfgEx 5 3 (by decide)
    (by decide)

end AvailLight.Maintenance
